import Mathlib

/-!
Shallow embedding of the sync orchestration routes of the
famly-to-babyconnect-sync backend:
`backend/api/routes_sync.py` and `backend/api/routes_homeassistant.py`.

The route handlers are modelled as pure functions from an explicit process
state (the single-flight sync lock plus the progress-tracker registry) to a
response, a final state, and a trace of the externally observable actions
performed (driver calls, gate and progress-tracker operations).  External
collaborators that live outside the two route files (the scraping drivers,
the missing-id computation and the entry-creation service from
`backend/core/sync_service.py`, and the progress tracker from
`backend/core/progress_state.py`) are passed in as outcome parameters or,
where their behaviour decides a claim, modelled from the spec.
-/

namespace FamlySync

/-- A JSON-like value as it appears in the route response dictionaries. -/
inductive JsonVal where
  | str (s : String)
  | num (n : Int)
  | ids (l : List Int)
  deriving DecidableEq, Repr

/-- A Python dict with string keys, modelled as an association list. -/
abbrev Dict := List (String × JsonVal)

/-- Lookup of a key in a dict (Python `d[k]` / `d.get(k)`). -/
def dictLookup (d : Dict) (k : String) : Option JsonVal :=
  match d with
  | [] => none
  | (k1, v) :: rest => if k1 = k then some v else dictLookup rest k

/-- Assignment `d[k] = v`: replaces the value at an existing key in place,
otherwise appends the new binding. -/
def dictSet (d : Dict) (k : String) (v : JsonVal) : Dict :=
  match d with
  | [] => [(k, v)]
  | (k1, v1) :: rest =>
      if k1 = k then (k1, v) :: rest else (k1, v1) :: dictSet rest k v

/-- Python `d.setdefault(k, v)`: inserts the binding only when the key is
absent. -/
def dictSetdefault (d : Dict) (k : String) (v : JsonVal) : Dict :=
  match dictLookup d k with
  | some _ => d
  | none => d ++ [(k, v)]

/-- Python `d.update(other)`: assigns every binding of `other` into `d`. -/
def dictUpdate (d other : Dict) : Dict :=
  other.foldl (fun acc kv => dictSet acc kv.1 kv.2) d

/-- Modelled from the spec (§4.2, the progress tracker of
`backend/core/progress_state.py` is not under src): status of a progress
entry. -/
inductive ProgressStatus where
  | running
  | succeeded
  | failed
  deriving DecidableEq, Repr

/-- Modelled from the spec (§3): transient state of one named long-running
operation. -/
structure ProgressEntry where
  status : ProgressStatus
  total : Nat
  current : Nat
  message : Option String
  error : Option String
  deriving DecidableEq, Repr

/-- The progress tracker registry: at most one entry per name. -/
abbrev ProgressMap := List (String × ProgressEntry)

/-- Lookup of the entry registered under a name. -/
def pmLookup (p : ProgressMap) (name : String) : Option ProgressEntry :=
  match p with
  | [] => none
  | (n, e) :: rest => if n = name then some e else pmLookup rest name

/-- Create or replace the entry registered under a name. -/
def pmSet (p : ProgressMap) (name : String) (e : ProgressEntry) : ProgressMap :=
  match p with
  | [] => [(name, e)]
  | (n, e1) :: rest =>
      if n = name then (n, e) :: rest else (n, e1) :: pmSet rest name e

/-- Remove every entry registered under a name. -/
def pmRemove (p : ProgressMap) (name : String) : ProgressMap :=
  match p with
  | [] => []
  | (n, e) :: rest =>
      if n = name then pmRemove rest name else (n, e) :: pmRemove rest name

/-- Modelled from the spec (§4.2 `start`): creates or replaces the entry for
`name` with status running, current 0, the given total, and no error. -/
def start_progress (p : ProgressMap) (name : String) (total : Nat) : ProgressMap :=
  pmSet p name { status := .running, total := total, current := 0, message := none, error := none }

/-- Modelled from the spec (§4.2 `set_message`): updates the message when the
entry exists; silent no-op otherwise. -/
def set_progress_message (p : ProgressMap) (name text : String) : ProgressMap :=
  match pmLookup p name with
  | none => p
  | some e => pmSet p name { e with message := some text }

/-- Modelled from the spec (§4.2 `finish`): transitions a running entry to
succeeded; silent no-op on an absent or non-running entry. -/
def finish_progress (p : ProgressMap) (name : String) : ProgressMap :=
  match pmLookup p name with
  | none => p
  | some e =>
      if e.status = .running then pmSet p name { e with status := .succeeded } else p

/-- Modelled from the spec (§4.2 `fail`): transitions a running entry to
failed and records the error detail; silent no-op otherwise. -/
def fail_progress (p : ProgressMap) (name detail : String) : ProgressMap :=
  match pmLookup p name with
  | none => p
  | some e =>
      if e.status = .running then
        pmSet p name { e with status := .failed, error := some detail }
      else p

/-- Modelled from the spec (§4.2 `clear`): removes the entry for `name`
entirely, regardless of state. -/
def clear_progress (p : ProgressMap) (name : String) : ProgressMap :=
  pmRemove p name

/-- Modelled from the spec (§4.2 `snapshot`): an immutable point-in-time copy
of all current entries; in the pure model the copy is the map itself. -/
def get_progress_snapshot (p : ProgressMap) : ProgressMap := p

/-- The process state shared by the sync routes: the `_SYNC_LOCK` held flag
and the progress-tracker registry. -/
structure SyncState where
  gateHeld : Bool
  progress : ProgressMap
  deriving DecidableEq, Repr

/-- The outcome of a call into an external collaborator: a returned value or
a raised exception carrying a detail string. -/
inductive Outcome (α : Type) where
  | ok (a : α)
  | err (detail : String)
  deriving DecidableEq, Repr

/-- A route response: a JSON body, or an HTTPException with a status code and
a detail string. -/
inductive HandlerResponse where
  | ok (body : Dict)
  | httpError (status_code : Nat) (detail : String)
  deriving DecidableEq, Repr

/-- Field lookup inside a successful response body. -/
def responseField (r : HandlerResponse) (k : String) : Option JsonVal :=
  match r with
  | .ok body => dictLookup body k
  | .httpError _ _ => none

/-- An externally observable action performed by a route handler.  The
`replay` action records the ids handed to the entry-creation service together
with whether the single-flight gate was held at the moment of the call. -/
inductive Action where
  | scrapeFamly (days_back : Int)
  | scrapeBabyConnect (days_back : Int)
  | acquireGate
  | releaseGate
  | computeMissing
  | progressStart (name : String) (total : Nat)
  | progressMessage (name text : String)
  | progressFinish (name : String)
  | progressFail (name detail : String)
  | progressClear (name : String)
  | replay (ids : List Int) (gateHeld : Bool)
  deriving DecidableEq, Repr

/-- Whether an action registers a progress entry. -/
def isProgressStart : Action → Bool
  | .progressStart _ _ => true
  | _ => false

/-- Whether an action is a call into the entry-creation service. -/
def isReplay : Action → Bool
  | .replay _ _ => true
  | _ => false

/-- The result of running a sync route handler: its response, the final
process state, and the trace of actions it performed. -/
structure RunResult where
  response : HandlerResponse
  state : SyncState
  trace : List Action
  deriving Repr

/-- Detail string of the 409 conflict raised by `_acquire_sync_lock`. -/
def conflictDetail : String := "Sync already in progress. Please wait for it to finish."

/-- `POST /sync/baby_connect/entries` (routes_sync.py `create_babyconnect_entries`):
acquire the sync lock (409 when already held), start and message the "sync"
progress entry, call the entry-creation service, default the
`synced_event_ids` field of the result to the input ids, and in a `finally`
block finish (on success) or fail (on error) the entry, clear it, and release
the lock. -/
def create_babyconnect_entries (event_ids : List Int)
    (create_entries_service : List Int → Outcome Dict)
    (st : SyncState) : RunResult :=
  if st.gateHeld then
    { response := .httpError 409 conflictDetail, state := st, trace := [] }
  else
    let p2 := set_progress_message (start_progress st.progress "sync" event_ids.length)
      "sync" "Syncing selected entries..."
    let preTrace := [Action.acquireGate, Action.progressStart "sync" event_ids.length,
      Action.progressMessage "sync" "Syncing selected entries...",
      Action.replay event_ids true]
    match create_entries_service event_ids with
    | .ok result =>
        { response := .ok (dictSetdefault result "synced_event_ids" (.ids event_ids))
          state := { gateHeld := false,
                     progress := clear_progress (finish_progress p2 "sync") "sync" }
          trace := preTrace ++ [.progressFinish "sync", .progressClear "sync", .releaseGate] }
    | .err detail =>
        { response := .httpError 500 detail
          state := { gateHeld := false,
                     progress := clear_progress (fail_progress p2 "sync" detail) "sync" }
          trace := preTrace ++ [.progressFail "sync" detail, .progressClear "sync", .releaseGate] }

/-- `POST /sync/missing` (routes_sync.py `sync_missing_entries`): acquire the
sync lock (409 when already held), compute the missing famly event ids
(releasing the lock and raising 500 on failure), fast-exit with a released
lock when nothing is missing, otherwise start progress, call the
entry-creation service with the missing ids, decorate the result, and in a
`finally` block finish or fail the entry, clear it, and release the lock. -/
def sync_missing_entries
    (get_missing_famly_event_ids : Outcome (List Int))
    (create_entries_service : List Int → Outcome Dict)
    (st : SyncState) : RunResult :=
  if st.gateHeld then
    { response := .httpError 409 conflictDetail, state := st, trace := [] }
  else
    match get_missing_famly_event_ids with
    | .err detail =>
        { response := .httpError 500 detail
          state := { st with gateHeld := false }
          trace := [.acquireGate, .computeMissing, .releaseGate] }
    | .ok missing_ids =>
      if missing_ids.isEmpty then
        { response := .ok [("status", .str "ok"), ("created", .num 0),
                           ("missing_event_ids", .ids [])]
          state := { st with gateHeld := false }
          trace := [.acquireGate, .computeMissing, .releaseGate] }
      else
        let p2 := set_progress_message (start_progress st.progress "sync" missing_ids.length)
          "sync" "Syncing missing entries..."
        let preTrace := [Action.acquireGate, Action.computeMissing,
          Action.progressStart "sync" missing_ids.length,
          Action.progressMessage "sync" "Syncing missing entries...",
          Action.replay missing_ids true]
        match create_entries_service missing_ids with
        | .ok result =>
            let r1 := dictSetdefault result "status" (.str "ok")
            let r2 := dictSet r1 "missing_event_ids" (.ids missing_ids)
            { response := .ok (dictSetdefault r2 "synced_event_ids" (.ids missing_ids))
              state := { gateHeld := false,
                         progress := clear_progress (finish_progress p2 "sync") "sync" }
              trace := preTrace ++ [.progressFinish "sync", .progressClear "sync", .releaseGate] }
        | .err detail =>
            { response := .httpError 500 detail
              state := { gateHeld := false,
                         progress := clear_progress (fail_progress p2 "sync" detail) "sync" }
              trace := preTrace ++ [.progressFail "sync" detail, .progressClear "sync", .releaseGate] }

/-- `POST /scrape/famly` (routes_sync.py `scrape_famly`): FastAPI rejects
`days_back` outside 0..7 before the handler runs; otherwise the famly
scraping driver is invoked with the given value and its count reported. -/
def scrape_famly (days_back : Int) (scrape_famly_and_store : Outcome Nat) :
    HandlerResponse × List Action :=
  if days_back < 0 ∨ 7 < days_back then
    (.httpError 422 "days_back out of range", [])
  else
    match scrape_famly_and_store with
    | .err detail => (.httpError 500 detail, [.scrapeFamly days_back])
    | .ok n =>
        (.ok [("status", .str "ok"), ("scraped_count", .num (Int.ofNat n)),
              ("days_back", .num days_back)],
         [.scrapeFamly days_back])

/-- `POST /scrape/baby_connect` (routes_sync.py `scrape_baby_connect`):
FastAPI rejects `days_back` outside 0..14 before the handler runs; otherwise
the baby-connect scraping driver is invoked with the given value. -/
def scrape_baby_connect (days_back : Int) (scrape_babyconnect_and_store : Outcome Nat) :
    HandlerResponse × List Action :=
  if days_back < 0 ∨ 14 < days_back then
    (.httpError 422 "days_back out of range", [])
  else
    match scrape_babyconnect_and_store with
    | .err detail => (.httpError 500 detail, [.scrapeBabyConnect days_back])
    | .ok n =>
        (.ok [("status", .str "ok"), ("scraped_count", .num (Int.ofNat n)),
              ("days_back", .num days_back)],
         [.scrapeBabyConnect days_back])

/-- `POST /homeassistant/run` (routes_homeassistant.py `homeassistant_run`):
FastAPI rejects `days_back` outside 0..7; otherwise the handler scrapes
famly, computes the missing ids, builds the base response, and when the
missing set is non-empty calls the entry-creation service directly — it never
touches the sync lock or the progress tracker, so the process state passes
through unchanged and the replay action records the caller's gate state. -/
def homeassistant_run (days_back : Int)
    (scrape_famly_and_store : Outcome Nat)
    (get_missing_famly_event_ids : Outcome (List Int))
    (create_entries_service : List Int → Outcome Dict)
    (st : SyncState) : RunResult :=
  if days_back < 0 ∨ 7 < days_back then
    { response := .httpError 422 "days_back out of range", state := st, trace := [] }
  else
    match scrape_famly_and_store with
    | .err detail =>
        { response := .httpError 500 ("Famly scrape failed: " ++ detail)
          state := st, trace := [.scrapeFamly days_back] }
    | .ok scraped_count =>
      match get_missing_famly_event_ids with
      | .err detail =>
          { response := .httpError 500 ("Failed to determine missing events: " ++ detail)
            state := st, trace := [.scrapeFamly days_back, .computeMissing] }
      | .ok missing_ids =>
        let response : Dict :=
          [("scraped_count", .num (Int.ofNat scraped_count)),
           ("days_back", .num days_back),
           ("missing_event_ids", .ids missing_ids),
           ("synced_event_ids", .ids []),
           ("status", .str "ok"),
           ("created", .num 0)]
        if missing_ids.isEmpty then
          { response := .ok response, state := st
            trace := [.scrapeFamly days_back, .computeMissing] }
        else
          match create_entries_service missing_ids with
          | .err detail =>
              { response := .httpError 500 ("Syncing missing events failed: " ++ detail)
                state := st
                trace := [.scrapeFamly days_back, .computeMissing,
                          .replay missing_ids st.gateHeld] }
          | .ok result =>
              { response := .ok (dictSetdefault (dictUpdate response result)
                  "synced_event_ids" (.ids missing_ids))
                state := st
                trace := [.scrapeFamly days_back, .computeMissing,
                          .replay missing_ids st.gateHeld] }

/-- The Home-Assistant status response (routes_homeassistant.py
`homeassistant_status`), with ingestion timestamps abstracted to naturals. -/
structure StatusResponse where
  last_sync_at : Option Nat
  famly_last_scrape_at : Option Nat
  baby_connect_last_scrape_at : Option Nat
  sync_in_progress : Bool
  sync_status : String
  progress : ProgressMap
  deriving DecidableEq, Repr

/-- `GET /homeassistant/status` (routes_homeassistant.py
`homeassistant_status`): `sync_in_progress` is whether any progress entry is
running, and `last_sync_at` is `baby_last or famly_last`. -/
def homeassistant_status (progress : ProgressMap) (famly_last baby_last : Option Nat) :
    StatusResponse :=
  let in_progress := progress.any (fun kv => kv.2.status = ProgressStatus.running)
  { last_sync_at := match baby_last with | some t => some t | none => famly_last
    famly_last_scrape_at := famly_last
    baby_connect_last_scrape_at := baby_last
    sync_in_progress := in_progress
    sync_status := if in_progress then "running" else "idle"
    progress := progress }

/-- Modelled from the spec (§4.4c step 4, the entry-creation service
`create_babyconnect_entries` of `backend/core/sync_service.py` is not under
src): on full success the replay reports the count created and the list of
ids actually synced, which is all of the input ids. -/
def replayResult (ids : List Int) : Dict :=
  [("created", .num (Int.ofNat ids.length)), ("synced_event_ids", .ids ids)]

/-- The spec-modelled entry-creation service as an always-successful
collaborator. -/
def svcModel : List Int → Outcome Dict := fun l => Outcome.ok (replayResult l)

/-- C1: the claim says every code path that invokes the record-creation
replay holds the Single-Flight Gate for the whole replay.  The code violates
this: `homeassistant_run` with a free gate, a successful scrape, and missing
ids `[10, 11]` calls the entry-creation service with the gate not held (its
trace contains a replay action recording `gateHeld = false`), and it never
acquires the gate at all. -/
theorem C1_homeassistant_replays_without_gate :
    Action.replay [10, 11] false ∈
      (homeassistant_run 1 (Outcome.ok 2) (Outcome.ok [10, 11]) svcModel
        { gateHeld := false, progress := [] }).trace ∧
    Action.acquireGate ∉
      (homeassistant_run 1 (Outcome.ok 2) (Outcome.ok [10, 11]) svcModel
        { gateHeld := false, progress := [] }).trace := by
  decide

/-- C2 counterexample: with both timestamps present, famly last at 5 and
baby_connect last at 3, the status handler does not return the more recent
of the two timestamps (it returns the baby_connect one, 3). -/
theorem C2_not_more_recent_counterexample :
    (homeassistant_status [] (some 5) (some 3)).last_sync_at ≠ some (max 5 3) := by
  decide

/-- C2 amended: `last_sync_at` is the target-system (baby_connect) timestamp
whenever that one is present — regardless of which of the two is more
recent — and the source (famly) timestamp only when the target one is
absent. -/
theorem C2_last_sync_target_priority (p : ProgressMap) (famly_last baby_last : Option Nat) :
    (∀ t : Nat, baby_last = some t →
      (homeassistant_status p famly_last baby_last).last_sync_at = some t) ∧
    (baby_last = none →
      (homeassistant_status p famly_last baby_last).last_sync_at = famly_last) := by
  constructor
  · intro t ht
    simp [homeassistant_status, ht]
  · intro ht
    simp [homeassistant_status, ht]

/-- C2 witness: at famly last 5 and baby_connect last 3, the reported
last_sync_at is 3. -/
theorem C2_last_sync_target_priority_witness :
    (homeassistant_status [] (some 5) (some 3)).last_sync_at = some 3 :=
  (C2_last_sync_target_priority [] (some 5) (some 3)).1 3 rfl

/-- C4: the claim says the Home-Assistant trimmed run starts a "sync"
progress entry with total the number of missing ids before the replay and
clears it afterwards, so a concurrent GetStatus reports sync_in_progress.
The code violates this: at a concrete run with missing ids `[10, 11]` the
handler calls the entry-creation service, yet its trace contains no
progress-start action at all, the progress registry is left untouched (so it
is still empty during and after the replay), and a GetStatus against that
registry reports sync_in_progress = false. -/
theorem C4_homeassistant_run_starts_no_progress :
    (homeassistant_run 1 (Outcome.ok 2) (Outcome.ok [10, 11]) svcModel
        { gateHeld := false, progress := [] }).trace.any isReplay = true ∧
    (homeassistant_run 1 (Outcome.ok 2) (Outcome.ok [10, 11]) svcModel
        { gateHeld := false, progress := [] }).trace.any isProgressStart = false ∧
    (homeassistant_run 1 (Outcome.ok 2) (Outcome.ok [10, 11]) svcModel
        { gateHeld := false, progress := [] }).state.progress = [] ∧
    (homeassistant_status
      (homeassistant_run 1 (Outcome.ok 2) (Outcome.ok [10, 11]) svcModel
        { gateHeld := false, progress := [] }).state.progress
      none none).sync_in_progress = false := by
  decide

/-- After removing a name from the registry, lookup of that name yields
nothing. -/
theorem pmLookup_pmRemove (p : ProgressMap) (name : String) :
    pmLookup (pmRemove p name) name = none := by
  induction p with
  | nil => rfl
  | cons kv rest ih =>
      by_cases hk : kv.1 = name
      · simpa [pmRemove, hk] using ih
      · simpa [pmRemove, pmLookup, hk] using ih

/-- C5: when the missing-id computation of SyncMissing returns the empty
list, the handler (entered with the gate free) returns exactly
`{status: ok, created: 0, missing_event_ids: []}`, never calls the
entry-creation service, never starts a progress entry, leaves the progress
registry untouched, and leaves the gate exactly as it found it: free. -/
theorem C5_sync_missing_empty_fast_exit
    (svc : List Int → Outcome Dict) (st : SyncState) (h : st.gateHeld = false) :
    (sync_missing_entries (Outcome.ok []) svc st).response =
      .ok [("status", .str "ok"), ("created", .num 0), ("missing_event_ids", .ids [])] ∧
    (sync_missing_entries (Outcome.ok []) svc st).state.gateHeld = false ∧
    (sync_missing_entries (Outcome.ok []) svc st).state.progress = st.progress ∧
    (sync_missing_entries (Outcome.ok []) svc st).trace.any isReplay = false ∧
    (sync_missing_entries (Outcome.ok []) svc st).trace.any isProgressStart = false := by
  simp [sync_missing_entries, h, isReplay, isProgressStart]

/-- C5 witness: the fast exit evaluated from the free-gate state with an
empty registry. -/
theorem C5_sync_missing_empty_fast_exit_witness :
    (sync_missing_entries (Outcome.ok []) svcModel ⟨false, []⟩).response =
      .ok [("status", .str "ok"), ("created", .num 0), ("missing_event_ids", .ids [])] ∧
    (sync_missing_entries (Outcome.ok []) svcModel ⟨false, []⟩).state.gateHeld = false ∧
    (sync_missing_entries (Outcome.ok []) svcModel ⟨false, []⟩).state.progress = [] ∧
    (sync_missing_entries (Outcome.ok []) svcModel ⟨false, []⟩).trace.any isReplay = false ∧
    (sync_missing_entries (Outcome.ok []) svcModel ⟨false, []⟩).trace.any isProgressStart = false :=
  C5_sync_missing_empty_fast_exit svcModel ⟨false, []⟩ rfl

/-- C6: every CreateEntries or SyncMissing call that acquired the gate
(i.e. entered with the gate free) ends with the gate released, whatever the
outcome of the missing-id computation and of the entry-creation service —
success, computation failure, replay failure, or the empty-missing fast
exit. -/
theorem C6_gate_released_on_every_exit_path
    (event_ids : List Int) (missing : Outcome (List Int))
    (svc : List Int → Outcome Dict) (st : SyncState) (h : st.gateHeld = false) :
    (create_babyconnect_entries event_ids svc st).state.gateHeld = false ∧
    (sync_missing_entries missing svc st).state.gateHeld = false := by
  constructor
  · unfold create_babyconnect_entries
    cases hs : svc event_ids <;> simp [h, hs]
  · unfold sync_missing_entries
    cases missing with
    | err detail => simp [h]
    | ok missing_ids =>
        by_cases he : missing_ids.isEmpty
        · simp [h, he]
        · cases hs : svc missing_ids <;> simp [h, he, hs]

/-- C6 witness: a concrete failing replay (service raises) entered with the
gate free still ends with the gate released. -/
theorem C6_gate_released_on_every_exit_path_witness :
    (create_babyconnect_entries [7] (fun _ => Outcome.err "boom") ⟨false, []⟩).state.gateHeld
      = false ∧
    (sync_missing_entries (Outcome.ok [7]) (fun _ => Outcome.err "boom")
      ⟨false, []⟩).state.gateHeld = false :=
  C6_gate_released_on_every_exit_path [7] (Outcome.ok [7]) (fun _ => Outcome.err "boom")
    ⟨false, []⟩ rfl

/-- C7: whenever a CreateEntries or SyncMissing call started the "sync"
progress entry (its trace contains a progress-start action), the entry is
cleared by the time the call returns: looking up "sync" in the final
registry yields nothing, so a subsequent GetProgress snapshot shows it
absent. -/
theorem C7_sync_progress_cleared_on_completion
    (event_ids : List Int) (missing : Outcome (List Int))
    (svc : List Int → Outcome Dict) (st : SyncState) :
    ((create_babyconnect_entries event_ids svc st).trace.any isProgressStart = true →
      pmLookup (get_progress_snapshot
        (create_babyconnect_entries event_ids svc st).state.progress) "sync" = none) ∧
    ((sync_missing_entries missing svc st).trace.any isProgressStart = true →
      pmLookup (get_progress_snapshot
        (sync_missing_entries missing svc st).state.progress) "sync" = none) := by
  constructor
  · intro htrace
    unfold create_babyconnect_entries at htrace ⊢
    by_cases h : st.gateHeld
    · simp [h] at htrace
    · cases hs : svc event_ids <;>
        simp [h, hs, get_progress_snapshot, clear_progress, pmLookup_pmRemove]
  · intro htrace
    unfold sync_missing_entries at htrace ⊢
    by_cases h : st.gateHeld
    · simp [h] at htrace
    · cases missing with
      | err detail => simp [h, isProgressStart] at htrace
      | ok missing_ids =>
          by_cases he : missing_ids.isEmpty
          · simp [h, he, isProgressStart] at htrace
          · cases hs : svc missing_ids <;>
              simp [h, he, hs, get_progress_snapshot, clear_progress, pmLookup_pmRemove]

/-- C7 witness: a concrete successful CreateEntries call that started the
"sync" entry shows it absent afterwards. -/
theorem C7_sync_progress_cleared_on_completion_witness :
    (create_babyconnect_entries [7] svcModel ⟨false, []⟩).trace.any isProgressStart = true ∧
    pmLookup (get_progress_snapshot
      (create_babyconnect_entries [7] svcModel ⟨false, []⟩).state.progress) "sync" = none :=
  ⟨by decide,
   (C7_sync_progress_cleared_on_completion [7] (Outcome.ok []) svcModel ⟨false, []⟩).1
     (by decide)⟩

/-- C8: a CreateEntries or SyncMissing call made while the gate is already
held fails with a 409 conflict and performs no work: the trace is empty (no
progress operation, no missing-id computation, no entry-creation call) and
the process state, gate included, is unchanged. -/
theorem C8_conflict_when_gate_held
    (event_ids : List Int) (missing : Outcome (List Int))
    (svc : List Int → Outcome Dict) (st : SyncState) (h : st.gateHeld = true) :
    (create_babyconnect_entries event_ids svc st).response = .httpError 409 conflictDetail ∧
    (create_babyconnect_entries event_ids svc st).state = st ∧
    (create_babyconnect_entries event_ids svc st).trace = [] ∧
    (sync_missing_entries missing svc st).response = .httpError 409 conflictDetail ∧
    (sync_missing_entries missing svc st).state = st ∧
    (sync_missing_entries missing svc st).trace = [] := by
  simp [create_babyconnect_entries, sync_missing_entries, h]

/-- C8 witness: a concrete call against a held gate. -/
theorem C8_conflict_when_gate_held_witness :
    (create_babyconnect_entries [7] svcModel ⟨true, []⟩).response =
      .httpError 409 conflictDetail ∧
    (create_babyconnect_entries [7] svcModel ⟨true, []⟩).state = ⟨true, []⟩ ∧
    (create_babyconnect_entries [7] svcModel ⟨true, []⟩).trace = [] ∧
    (sync_missing_entries (Outcome.ok [7]) svcModel ⟨true, []⟩).response =
      .httpError 409 conflictDetail ∧
    (sync_missing_entries (Outcome.ok [7]) svcModel ⟨true, []⟩).state = ⟨true, []⟩ ∧
    (sync_missing_entries (Outcome.ok [7]) svcModel ⟨true, []⟩).trace = [] :=
  C8_conflict_when_gate_held [7] (Outcome.ok [7]) svcModel ⟨true, []⟩ rfl

/-- C9: `days_back` values outside the configured bound (0..7 for the famly
scrape and the Home-Assistant run, 0..14 for the baby-connect scrape) are
rejected before any ingestion-driver call (empty trace, 422 response), and
every in-range value reaches the driver unchanged (the first traced action
is the scrape with exactly that value). -/
theorem C9_days_back_bounds
    (d : Int) (so : Outcome Nat) (missing : Outcome (List Int))
    (svc : List Int → Outcome Dict) (st : SyncState) :
    ((d < 0 ∨ 7 < d) →
      (scrape_famly d so).2 = [] ∧
      (scrape_famly d so).1 = .httpError 422 "days_back out of range") ∧
    (0 ≤ d → d ≤ 7 → (scrape_famly d so).2.head? = some (.scrapeFamly d)) ∧
    ((d < 0 ∨ 14 < d) →
      (scrape_baby_connect d so).2 = [] ∧
      (scrape_baby_connect d so).1 = .httpError 422 "days_back out of range") ∧
    (0 ≤ d → d ≤ 14 → (scrape_baby_connect d so).2.head? = some (.scrapeBabyConnect d)) ∧
    ((d < 0 ∨ 7 < d) →
      (homeassistant_run d so missing svc st).trace = [] ∧
      (homeassistant_run d so missing svc st).response =
        .httpError 422 "days_back out of range") ∧
    (0 ≤ d → d ≤ 7 →
      (homeassistant_run d so missing svc st).trace.head? = some (.scrapeFamly d)) := by
  refine ⟨fun hor => ?_, fun h0 h7 => ?_, fun hor => ?_, fun h0 h14 => ?_,
    fun hor => ?_, fun h0 h7 => ?_⟩
  · simp [scrape_famly, hor]
  · have hin : ¬ (d < 0 ∨ 7 < d) := by omega
    cases so <;> simp [scrape_famly, hin]
  · simp [scrape_baby_connect, hor]
  · have hin : ¬ (d < 0 ∨ 14 < d) := by omega
    cases so <;> simp [scrape_baby_connect, hin]
  · simp [homeassistant_run, hor]
  · have hin : ¬ (d < 0 ∨ 7 < d) := by omega
    cases so with
    | err detail => simp [homeassistant_run, hin]
    | ok n =>
        cases missing with
        | err detail => simp [homeassistant_run, hin]
        | ok missing_ids =>
            by_cases he : missing_ids.isEmpty
            · simp [homeassistant_run, hin, he]
            · cases hs : svc missing_ids <;> simp [homeassistant_run, hin, he, hs]

/-- C9 witness: days_back 9 is rejected by the famly scrape with an empty
trace, while days_back 3 reaches the driver unchanged. -/
theorem C9_days_back_bounds_witness :
    ((scrape_famly 9 (Outcome.ok 2)).2 = [] ∧
      (scrape_famly 9 (Outcome.ok 2)).1 = .httpError 422 "days_back out of range") ∧
    (scrape_famly 3 (Outcome.ok 2)).2.head? = some (.scrapeFamly 3) :=
  ⟨(C9_days_back_bounds 9 (Outcome.ok 2) (Outcome.ok []) svcModel ⟨false, []⟩).1
      (by decide),
   ((C9_days_back_bounds 3 (Outcome.ok 2) (Outcome.ok []) svcModel ⟨false, []⟩).2.1
      (by decide) (by decide))⟩

/-- C3: with the entry-creation service modelled from the spec (on success it
reports the created count and the full synced id list), every successful
run — CreateEntries on its input list, SyncMissing and the Home-Assistant
run on the computed missing ids — responds with `created` equal to the
number of replayed ids and `synced_event_ids` equal to the full replayed
list. -/
theorem C3_success_reports_full_id_list
    (ids missing_ids : List Int) (hne : missing_ids ≠ []) (st : SyncState)
    (h : st.gateHeld = false) (d : Int) (h0 : 0 ≤ d) (h7 : d ≤ 7) (n : Nat) :
    (responseField (create_babyconnect_entries ids svcModel st).response "created"
        = some (.num (Int.ofNat ids.length)) ∧
     responseField (create_babyconnect_entries ids svcModel st).response "synced_event_ids"
        = some (.ids ids)) ∧
    (responseField (sync_missing_entries (Outcome.ok missing_ids) svcModel st).response
        "created" = some (.num (Int.ofNat missing_ids.length)) ∧
     responseField (sync_missing_entries (Outcome.ok missing_ids) svcModel st).response
        "synced_event_ids" = some (.ids missing_ids)) ∧
    (responseField (homeassistant_run d (Outcome.ok n) (Outcome.ok missing_ids) svcModel
        st).response "created" = some (.num (Int.ofNat missing_ids.length)) ∧
     responseField (homeassistant_run d (Outcome.ok n) (Outcome.ok missing_ids) svcModel
        st).response "synced_event_ids" = some (.ids missing_ids)) := by
  have hin : ¬ (d < 0 ∨ 7 < d) := by omega
  obtain ⟨m, ms, rfl⟩ : ∃ m ms, missing_ids = m :: ms := by
    cases missing_ids with
    | nil => exact absurd rfl hne
    | cons m ms => exact ⟨m, ms, rfl⟩
  refine ⟨⟨?_, ?_⟩, ⟨?_, ?_⟩, ⟨?_, ?_⟩⟩ <;>
    simp [create_babyconnect_entries, sync_missing_entries, homeassistant_run, h, hin,
      svcModel, replayResult, responseField, dictSetdefault, dictLookup, dictSet,
      dictUpdate, List.foldl]

/-- C3 witness: a run over ids [4, 5] from a free gate reports created 2 and
synced ids [4, 5] on all three routes. -/
theorem C3_success_reports_full_id_list_witness :
    (responseField (create_babyconnect_entries [4, 5] svcModel ⟨false, []⟩).response "created"
        = some (.num 2) ∧
     responseField (create_babyconnect_entries [4, 5] svcModel ⟨false, []⟩).response
        "synced_event_ids" = some (.ids [4, 5])) ∧
    (responseField (sync_missing_entries (Outcome.ok [4, 5]) svcModel ⟨false, []⟩).response
        "created" = some (.num 2) ∧
     responseField (sync_missing_entries (Outcome.ok [4, 5]) svcModel ⟨false, []⟩).response
        "synced_event_ids" = some (.ids [4, 5])) ∧
    (responseField (homeassistant_run 1 (Outcome.ok 3) (Outcome.ok [4, 5]) svcModel
        ⟨false, []⟩).response "created" = some (.num 2) ∧
     responseField (homeassistant_run 1 (Outcome.ok 3) (Outcome.ok [4, 5]) svcModel
        ⟨false, []⟩).response "synced_event_ids" = some (.ids [4, 5])) :=
  C3_success_reports_full_id_list [4, 5] [4, 5] (by decide) ⟨false, []⟩ rfl 1
    (by decide) (by decide) 3

/-- C10: a CreateEntries call with an empty id list and a free gate is not
rejected: its trace shows the gate acquired and released around a "sync"
progress entry started with total 0, messaged, and cleared, with the
entry-creation service invoked on the empty list in between; the call
succeeds, the final gate is free, the "sync" entry is absent afterwards, and
the response's synced_event_ids is the empty list. -/
theorem C10_empty_list_accepted
    (st : SyncState) (h : st.gateHeld = false) :
    (create_babyconnect_entries [] svcModel st).trace =
      [.acquireGate, .progressStart "sync" 0,
       .progressMessage "sync" "Syncing selected entries...",
       .replay [] true, .progressFinish "sync", .progressClear "sync", .releaseGate] ∧
    (create_babyconnect_entries [] svcModel st).response =
      .ok [("created", .num 0), ("synced_event_ids", .ids [])] ∧
    responseField (create_babyconnect_entries [] svcModel st).response "synced_event_ids"
      = some (.ids []) ∧
    (create_babyconnect_entries [] svcModel st).state.gateHeld = false ∧
    pmLookup (create_babyconnect_entries [] svcModel st).state.progress "sync" = none := by
  refine ⟨?_, ?_, ?_, ?_, ?_⟩ <;>
    simp [create_babyconnect_entries, h, svcModel, replayResult, responseField,
      dictSetdefault, dictLookup, clear_progress, pmLookup_pmRemove]

/-- C10 witness: the empty-list call from the free-gate, empty-registry
state. -/
theorem C10_empty_list_accepted_witness :
    (create_babyconnect_entries [] svcModel ⟨false, []⟩).trace =
      [.acquireGate, .progressStart "sync" 0,
       .progressMessage "sync" "Syncing selected entries...",
       .replay [] true, .progressFinish "sync", .progressClear "sync", .releaseGate] ∧
    (create_babyconnect_entries [] svcModel ⟨false, []⟩).response =
      .ok [("created", .num 0), ("synced_event_ids", .ids [])] ∧
    responseField (create_babyconnect_entries [] svcModel ⟨false, []⟩).response
      "synced_event_ids" = some (.ids []) ∧
    (create_babyconnect_entries [] svcModel ⟨false, []⟩).state.gateHeld = false ∧
    pmLookup (create_babyconnect_entries [] svcModel ⟨false, []⟩).state.progress "sync"
      = none :=
  C10_empty_list_accepted ⟨false, []⟩ rfl

end FamlySync
